import Mathlib

/-!
Verification of the Terabox downloader bots: a shallow embedding of the
link classifier, resolution arbiter, size/policy gate, progress throttling,
watchdog timeout decision, the per-chat file-details store, and the
filename sanitizer, translated from the JavaScript sources
(src/index.js and src/unnamed/part_000 .. part_006).
-/

namespace TeraboxBot

/-- Normalized adapter result, as built by fetchTeraboxDetailsFromRapidAPI /
fetchTeraboxDetailsFromAlphaAPI (src/unnamed/part_003 lines 159-211,
src/index.js lines 205-257).  JS fields may be absent or null; nullable
string fields are `Option String`, numeric size is `Option Nat`. -/
structure FileDetails where
  file_name : Option String
  sizebytes : Option Nat
  file_size : Option String
  link : Option String
  fastlink : Option String
deriving DecidableEq

/-- JS truthiness of a nullable string: null/undefined and the empty string
are falsy, every other string is truthy. -/
def truthyStr : Option String → Bool
  | none => false
  | some s => s != ""

/-- The repeated JS guard `x && x !== 'N/A'` on a nullable link field
(src/unnamed/part_003 lines 300-301, src/index.js lines 332-333). -/
def hasLink : Option String → Bool
  | none => false
  | some s => (s != "") && (s != "N/A")

/-- Model of the fallback `error?.message || 'Unknown error'` in the aggregate-error template of
getBestTeraboxDetails (src/unnamed/part_003 line 236): an empty message is
replaced by the fixed fallback text. -/
def errMsg (e : String) : String := if e = "" then "Unknown error" else e

/-- The resolution arbiter getBestTeraboxDetails
(src/unnamed/part_003 lines 213-265).  Each adapter outcome is
`Except String FileDetails`: `.error` when the fetch threw, `.ok` with the
parsed details otherwise.  Returns the chosen details with the source tag,
or the single aggregated error when both adapters failed. -/
def getBestTeraboxDetails (rapid alpha : Except String FileDetails) :
    Except String (FileDetails × String) :=
  match rapid, alpha with
  | Except.error re, Except.error ae =>
      Except.error ("Both APIs failed. RapidAPI: " ++ errMsg re ++
        ", AlphaAPI: " ++ errMsg ae)
  | Except.ok r, Except.error _ => Except.ok (r, "RapidAPI")
  | Except.error _, Except.ok a => Except.ok (a, "AlphaAPI")
  | Except.ok r, Except.ok a =>
      if hasLink r.fastlink then Except.ok (r, "RapidAPI")
      else if hasLink a.fastlink then Except.ok (a, "AlphaAPI")
      else if hasLink r.link then Except.ok (r, "RapidAPI")
      else Except.ok (a, "AlphaAPI")

/-- The post-resolution checks of handleDownload on the chosen details
(src/unnamed/part_003 lines 287-305, src/index.js lines 319-337): reject
details with a falsy file_name, then reject details with neither a usable
direct link nor a usable fast link. -/
def checkDetails (d : FileDetails) (src : String) :
    Except String (FileDetails × String) :=
  if !(truthyStr d.file_name) then
    Except.error "Invalid response from API. Could not get file details."
  else if !(hasLink d.link) && !(hasLink d.fastlink) then
    Except.error "No download links available for this file."
  else Except.ok (d, src)

/-- The resolution pipeline of src/unnamed/part_003 handleDownload:
getBestTeraboxDetails followed by the post-resolution checks
(lines 284-305). -/
def resolveUsable (rapid alpha : Except String FileDetails) :
    Except String (FileDetails × String) :=
  match getBestTeraboxDetails rapid alpha with
  | Except.error e => Except.error e
  | Except.ok (d, src) => checkDetails d src

/-- The sequential-with-fallback resolution of src/index.js handleDownload
lines 286-337 (userPreference is the constant 'auto' there, line 284): try
RapidAPI; on failure try AlphaAPI; if both threw, throw the single
aggregated error (line 298); then apply the same post-resolution checks. -/
def resolveIndexJs (rapid alpha : Except String FileDetails) :
    Except String (FileDetails × String) :=
  match rapid with
  | Except.ok r => checkDetails r "RapidAPI"
  | Except.error re =>
      match alpha with
      | Except.ok a => checkDetails a "AlphaAPI"
      | Except.error ae =>
          Except.error ("Both APIs failed. RapidAPI: " ++ re ++
            ", AlphaAPI: " ++ ae)

/-- The claim C1 premise on one adapter result: both link fields are null
or the literal string N/A. -/
def bothLinksNull (d : FileDetails) : Prop :=
  (d.link = none ∨ d.link = some "N/A") ∧
  (d.fastlink = none ∨ d.fastlink = some "N/A")

/-! ## String helpers (models of the JS string builtins used by the bots) -/

/-- Does the second list start with the first?  Helper for `listContains`. -/
def headMatches : List Char → List Char → Bool
  | [], _ => true
  | _ :: _, [] => false
  | a :: as, b :: bs => a == b && headMatches as bs

/-- Substring occurrence on character lists; helper for `strContains`. -/
def listContains (pat : List Char) : List Char → Bool
  | [] => pat.isEmpty
  | c :: cs => headMatches pat (c :: cs) || listContains pat cs

/-- Model of JS `s.includes(pat)`. -/
def strContains (s pat : String) : Bool := listContains pat.data s.data

/-- Model of JS `s.trim()`: strip leading and trailing whitespace. -/
def jsTrim (s : String) : String :=
  String.mk (((s.data.dropWhile Char.isWhitespace).reverse.dropWhile
    Char.isWhitespace).reverse)

/-! ## Link classifier -/

/-- SUPPORTED_DOMAINS of src/index.js lines 48-69. -/
def SUPPORTED_DOMAINS : List String :=
  ["terabox.com", "1drv.ms", "mega.nz", "mediafire.com", "drive.google.com",
   "dropbox.com", "onedrive.live.com", "sendspace.com", "box.com",
   "4shared.com", "wetransfer.com", "filemail.com", "yandex.disk",
   "fshare.vn", "solidfiles.com", "zippyshare.com", "racaty.net",
   "files.fm", "file-upload.com", "gofile.io"]

/-- getServiceProvider (src/index.js lines 171-178): the first supported
domain occurring as a substring of the input, else null. -/
def getServiceProvider (url : String) : Option String :=
  SUPPORTED_DOMAINS.find? (fun domain => strContains url domain)

/-- The unsupported-URL error message thrown by src/index.js handleDownload
line 270 when getServiceProvider returns null. -/
def unsupportedMsg : String :=
  "Unsupported URL. Please provide a link from one of the supported services:\n"
    ++ String.intercalate ", " SUPPORTED_DOMAINS

/-- Outcome of classifying one inbound text: either a terminal rejection
with the user-facing reason (no network call happens), or the locator that
is subsequently sent to a resolver API (a network call happens). -/
inductive Classified where
  | invalid (reason : String)
  | fetch (locator : String)
deriving DecidableEq

/-- The classification step of src/index.js handleDownload lines 267-271:
reject with `unsupportedMsg` before any API call when no supported domain
occurs in the input; otherwise the URL goes to the resolver adapters. -/
def classifyIndexJs (url : String) : Classified :=
  match getServiceProvider url with
  | none => Classified.invalid unsupportedMsg
  | some _ => Classified.fetch url

/-- Character class `[a-zA-Z0-9_-]` of the share-id regex in
extractTeraboxId (src/unnamed/part_001 line 36). -/
def isIdChar (c : Char) : Bool := c.isAlpha || c.isDigit || c == '_' || c == '-'

/-- Search for the first regex match of `\/s\/([a-zA-Z0-9_-]+)` and return
the captured group, scanning left to right as `String.prototype.match`
does.  Helper for `extractTeraboxId`. -/
def findSId : List Char → Option (List Char)
  | [] => none
  | c :: rest =>
      match c, rest with
      | '/', 's' :: '/' :: rest2 =>
          let run := rest2.takeWhile isIdChar
          if run.isEmpty then findSId rest else some run
      | _, _ => findSId rest

/-- extractTeraboxId of the Telegraf variants (src/unnamed/part_001
lines 35-38, part_005 lines 49-52, part_006 lines 191-194):
`text.match(/\/s\/([a-zA-Z0-9_-]+)/)`, falling back to `text.trim()`
when the regex does not match. -/
def extractTeraboxId (text : String) : String :=
  match findSId text.data with
  | some run => String.mk run
  | none => jsTrim text

/-- The classification step of the Telegraf text handler
(src/unnamed/part_001 lines 49-54): trim the message, extract the id, and
reject only when the extracted id is falsy (the empty string); any other
id is sent to the resolver API (`axios.get` at line 60). -/
def classifyTelegraf (message : String) : Classified :=
  let text := jsTrim message
  let videoId := extractTeraboxId text
  if videoId = "" then
    Classified.invalid "❌ Invalid TeraBox link. Please send a correct link or ID."
  else Classified.fetch videoId

/-- A bare alphanumeric id, one of the accepted input shapes named by the
claim C6 premise. -/
def isBareAlphanumericId (s : String) : Bool :=
  s != "" && s.data.all Char.isAlphanum

/-! ## Size/Policy Gate -/

/-- Decision of the size gate as observed by the requester. -/
inductive GateDecision where
  | DIRECT_RELAY
  | LINK_ONLY
deriving DecidableEq

/-- The size check of the Telegraf bots (src/unnamed/part_001 lines 77-79,
part_005 lines 165-172): `if (fileSize > 50000000)` reply with the direct
link only, otherwise stream the file through the bot.  `fileSize` is
`parseInt(response.data.data.size, 10) || 0`, so unknown size is 0. -/
def sizeGate (fileSize : Nat) : GateDecision :=
  if 50000000 < fileSize then GateDecision.LINK_ONLY
  else GateDecision.DIRECT_RELAY

/-! ## formatFileSize -/

/-- A JS value passed as a size: either a number of bytes or a string. -/
inductive SizeInput where
  | num (n : Nat)
  | str (s : String)

/-- Model of the JS builtin `Number(string)` on the inputs the bots meet:
the empty/whitespace string converts to 0, a decimal digit string to its
value, anything else to NaN (`none`).  (Other JS numeric literal forms are
outside every claim's input domain.) -/
def jsNumber (s : String) : Option ℚ :=
  let t := jsTrim s
  if t = "" then some 0 else (t.toNat?).map (fun n => (n : ℚ))

/-- Model of JS `x.toFixed(2)` for a non-negative finite value: round to
the nearest hundredth, ties away from zero, and render two decimals. -/
def toFixed2 (q : ℚ) : String :=
  let n : ℤ := ⌊q * 100 + 1 / 2⌋
  let fracPart : Nat := (n % 100).toNat
  toString (n / 100) ++ "." ++ (if fracPart < 10 then "0" else "") ++
    toString fracPart

/-- The unit names of formatFileSize (src/index.js line 159). -/
def unitsList : List String := ["B", "KB", "MB", "GB", "TB"]

/-- The `while (size >= 1024 && unitIndex < units.length - 1)` loop of
formatFileSize, dividing by 1024 and advancing the unit index.  Division
by 1024 is exact in IEEE doubles at these magnitudes, so ℚ models the JS
arithmetic exactly. -/
def fileSizeLoop (q : ℚ) (unitIndex : Nat) : ℚ × Nat :=
  if h : 1024 ≤ q ∧ unitIndex < 4 then fileSizeLoop (q / 1024) (unitIndex + 1)
  else (q, unitIndex)
termination_by 4 - unitIndex
decreasing_by omega

/-- The numeric rendering tail of formatFileSize: run the unit loop from
index 0 and render `size.toFixed(2) + ' ' + units[unitIndex]`. -/
def renderSize (q : ℚ) : String :=
  let p := fileSizeLoop q 0
  toFixed2 p.1 ++ " " ++ unitsList.getD p.2 "B"

/-- formatFileSize of src/index.js lines 154-169.  The guard is
`typeof sizeBytes === 'string' && sizeBytes.includes('MB') ||
sizeBytes.includes('GB')`: because `&&` binds tighter than `||`, a numeric
argument falls through to `sizeBytes.includes('GB')`, a call of a missing
method, which throws a TypeError. -/
def formatFileSizeIndexJs (v : SizeInput) : Except String String :=
  match v with
  | SizeInput.str s =>
      if strContains s "MB" then Except.ok s
      else if strContains s "GB" then Except.ok s
      else match jsNumber s with
        | some q => Except.ok (renderSize q)
        | none => Except.ok (renderSize 0)
  | SizeInput.num _ =>
      Except.error "TypeError: sizeBytes.includes is not a function"

/-- formatFileSize of src/unnamed/part_003 lines 99-123, the variant whose
comment reads `Fix for the TypeError - Check if sizeBytes is a string`:
the string test guards the includes calls, NaN yields `Unknown size`, and
numbers reach the unit loop. -/
def formatFileSizeFixed (v : SizeInput) : String :=
  match v with
  | SizeInput.str s =>
      if strContains s "MB" || strContains s "GB" then s
      else match jsNumber s with
        | none => "Unknown size"
        | some q => renderSize q
  | SizeInput.num n => renderSize (n : ℚ)

/-! ## Progress throttling (Transfer Manager) -/

/-- State of the time-throttled progress reporter of downloadAndSendFile
(src/unnamed/part_003 lines 414-432).  `reports` records, in order, the
time and running byte total of each fired progress callback. -/
structure TimeThrottleState where
  totalBytes : Nat
  lastUpdateTime : Nat
  reports : List (Nat × Nat)
deriving DecidableEq

/-- One `data` event of the time-throttled reporter: the event is the pair
(now, chunk length).  `if (now - lastUpdateTime > 3000)` fires the
callback and resets `lastUpdateTime`. -/
def timeStep (st : TimeThrottleState) (ev : Nat × Nat) : TimeThrottleState :=
  let tb := st.totalBytes + ev.2
  if st.lastUpdateTime + 3000 < ev.1 then
    { totalBytes := tb, lastUpdateTime := ev.1,
      reports := st.reports ++ [(ev.1, tb)] }
  else { st with totalBytes := tb }

/-- A whole stream of `data` events, starting at the stream setup time
(`lastUpdateTime = Date.now()`, src/unnamed/part_003 line 416). -/
def timeRun (startTime : Nat) (events : List (Nat × Nat)) : TimeThrottleState :=
  events.foldl timeStep ⟨0, startTime, []⟩

/-- State of the percent-throttled progress reporter of the Telegraf bot
(src/unnamed/part_001 lines 90-111).  `reports` records each percentage
handed to `editMessageText`, in order. -/
structure PercentThrottleState where
  downloadedSize : Nat
  lastProgress : Nat
  reports : List Nat
deriving DecidableEq

/-- One `data` event of the percent-throttled reporter:
`progress = Math.floor((downloadedSize / totalSize) * 100)` and the
callback fires iff `progress >= lastProgress + 10`.  For a known positive
`totalSize`, natural floor division models the JS float computation (the
throttling and monotonicity guards compare the very values stored back
into `lastProgress`, so they are insensitive to float rounding). -/
def percentStep (totalSize : Nat) (st : PercentThrottleState) (chunk : Nat) :
    PercentThrottleState :=
  let d := st.downloadedSize + chunk
  let progress := d * 100 / totalSize
  if st.lastProgress + 10 ≤ progress then
    { downloadedSize := d, lastProgress := progress,
      reports := st.reports ++ [progress] }
  else { st with downloadedSize := d }

/-- A whole stream of chunks through the percent-throttled reporter
(`downloadedSize = 0`, `lastProgress = 0` at stream start). -/
def percentRun (totalSize : Nat) (chunks : List Nat) : PercentThrottleState :=
  chunks.foldl (percentStep totalSize) ⟨0, 0, []⟩

/-! ## Watchdog timeout -/

/-- The watchdog `setTimeout` callback of downloadFile (src/index.js
lines 434-445, 10 minutes) and downloadAndSendFile (src/unnamed/part_003
lines 457-468, 5 minutes): given the state of the partially written file
when the timer fires before `finish`, the promise is resolved with the
path whenever the file exists and has more than zero bytes, and rejected
otherwise.  No configuration input exists in either variant. -/
def watchdogOutcome (filePath : String) (fileExists : Bool) (size : Nat) :
    Except String String :=
  if fileExists then
    if 0 < size then Except.ok filePath
    else Except.error "Download timed out or empty file"
  else Except.error "Download failed - no file created"

/-! ## File-details store -/

/-- Model of `Map.prototype.set` keyed by the chat id string, as used by
`this.fileDetailsMap.set(chatId.toString(), ...)` (src/index.js
lines 375-381): a pointwise functional update. -/
def mapSet (m : String → Option FileDetails) (k : String) (v : FileDetails) :
    String → Option FileDetails :=
  fun q => if q = k then some v else m q

/-- Replay a sequence of /download requests (chat id, stored details)
against the per-chat map, starting from the empty map. -/
def runRequests (reqs : List (String × FileDetails)) :
    String → Option FileDetails :=
  reqs.foldl (fun m r => mapSet m r.1 r.2) (fun _ => none)

/-- The descriptor most recently stored for chat `c` in a request
sequence: the specification of what handleDownloadCallback should read. -/
def lastFor (c : String) (reqs : List (String × FileDetails)) :
    Option FileDetails :=
  ((reqs.filter (fun r => r.1 = c)).getLast?).map Prod.snd

/-- The store of src/unnamed/part_002 lines 107-111: a single mutable
field `this.lastFileDetails`, overwritten by every request from any chat;
the callback handler (line 154) reads this one cell regardless of which
chat the callback came from. -/
def part002Run (reqs : List (String × FileDetails)) : Option FileDetails :=
  reqs.foldl (fun _ r => some r.2) none

/-! ## Filename sanitizer -/

/-- The character class kept by `fileName.replace(/[^a-z0-9.]/gi, '_')`
(src/index.js line 423, src/unnamed/part_004 line 209): ASCII letters of
either case, digits, and the dot. -/
def isAllowedChar (c : Char) : Bool :=
  ('a' ≤ c && c ≤ 'z') || ('A' ≤ c && c ≤ 'Z') || ('0' ≤ c && c ≤ '9') || c == '.'

/-- First replace: every character outside the class becomes an
underscore. -/
def replaceDisallowed (l : List Char) : List Char :=
  l.map (fun c => if isAllowedChar c then c else '_')

/-- Second replace, `.replace(/__+/g, '_')`: collapse every maximal run of
underscores to a single underscore (runs of length one are unchanged by
the regex, and unchanged here). -/
def collapseUnderscores : List Char → List Char
  | [] => []
  | [c] => [c]
  | c1 :: c2 :: rest =>
      if c1 == '_' && c2 == '_' then collapseUnderscores (c2 :: rest)
      else c1 :: collapseUnderscores (c2 :: rest)

/-- safeFileName of downloadFile (src/index.js lines 422-423,
src/unnamed/part_004 lines 208-209). -/
def safeFileName (fileName : String) : String :=
  String.mk (collapseUnderscores (replaceDisallowed fileName.data))

/-! ## Helper lemmas -/

theorem headMatches_self_append (l r : List Char) :
    headMatches l (l ++ r) = true := by
  induction l with
  | nil => rfl
  | cons a as ih => simp [headMatches, ih]

theorem listContains_append_mid (pre mid post : List Char) :
    listContains mid (pre ++ (mid ++ post)) = true := by
  induction pre with
  | nil =>
    simp only [List.nil_append]
    cases mid with
    | nil =>
      cases post with
      | nil => rfl
      | cons c cs => rfl
    | cons c cs =>
      have h := headMatches_self_append (c :: cs) post
      simp only [List.cons_append, listContains, Bool.or_eq_true]
      left
      simpa using h
  | cons p ps ih =>
    simp [listContains, ih]

theorem strContains_append_mid (pre mid post : String) :
    strContains (pre ++ (mid ++ post)) mid = true := by
  simpa [strContains, String.data_append] using
    listContains_append_mid pre.data mid.data post.data

theorem bothLinksNull_hasLink {d : FileDetails} (h : bothLinksNull d) :
    hasLink d.link = false ∧ hasLink d.fastlink = false := by
  obtain ⟨h1, h2⟩ := h
  constructor
  · rcases h1 with h | h <;> rw [h] <;> decide
  · rcases h2 with h | h <;> rw [h] <;> decide

theorem checkDetails_isOk_false {d : FileDetails}
    (h1 : hasLink d.link = false) (h2 : hasLink d.fastlink = false)
    (src : String) : (checkDetails d src).isOk = false := by
  unfold checkDetails
  rw [h1, h2]
  cases ht : truthyStr d.file_name <;> simp [ht, Except.isOk, Except.toBool]

theorem mem_collapseUnderscores {c : Char} :
    ∀ l : List Char, c ∈ collapseUnderscores l → c ∈ l := by
  intro l
  induction l with
  | nil => simp [collapseUnderscores]
  | cons a tail ih =>
    cases tail with
    | nil => simp [collapseUnderscores]
    | cons b bs =>
      intro hc
      unfold collapseUnderscores at hc
      by_cases hab : (a == '_' && b == '_') = true
      · rw [if_pos hab] at hc
        exact List.mem_cons_of_mem a (ih hc)
      · rw [if_neg hab] at hc
        rcases List.mem_cons.mp hc with h | h
        · exact h ▸ List.mem_cons_self a (b :: bs)
        · exact List.mem_cons_of_mem a (ih h)

theorem foldl_mapSet_eq (reqs : List (String × FileDetails))
    (m : String → Option FileDetails) (c : String) :
    List.foldl (fun acc r => mapSet acc r.1 r.2) m reqs c =
      (match lastFor c reqs with
       | some d => some d
       | none => m c) := by
  induction reqs using List.reverseRecOn with
  | nil => simp [lastFor]
  | append_singleton l r ih =>
    rw [List.foldl_append]
    by_cases hc : c = r.1
    · subst hc
      simp [lastFor, List.filter_append, mapSet]
    · have hrc : (decide (r.1 = c)) = false := by
        simp [decide_eq_false_iff_not]
        exact fun h => hc h.symm
      simp only [List.foldl_cons, List.foldl_nil, mapSet, if_neg hc]
      rw [ih]
      have : lastFor c (l ++ [r]) = lastFor c l := by
        simp [lastFor, List.filter_append, List.filter_cons, hrc]
      rw [this]

/-- Invariant of the time-throttled reporter: `lastUpdateTime` equals the
timestamp of the most recent report (or the start time when none fired
yet), and successive report timestamps are more than 3000 ms apart. -/
def timeInv (startTime : Nat) (st : TimeThrottleState) : Prop :=
  st.lastUpdateTime = ((st.reports.getLast?).map Prod.fst).getD startTime ∧
  List.Chain' (fun a b : Nat × Nat => a.1 + 3000 < b.1) st.reports

theorem timeStep_inv {startTime : Nat} {st : TimeThrottleState}
    (h : timeInv startTime st) (ev : Nat × Nat) :
    timeInv startTime (timeStep st ev) := by
  obtain ⟨hlast, hchain⟩ := h
  unfold timeStep
  by_cases hfire : st.lastUpdateTime + 3000 < ev.1
  · rw [if_pos hfire]
    constructor
    · simp [List.getLast?_concat]
    · rw [List.chain'_append]
      refine ⟨hchain, List.chain'_singleton _, ?_⟩
      intro x hx y hy
      simp only [List.head?_cons, Option.mem_def, Option.some_inj] at hy
      subst hy
      have : x.1 = st.lastUpdateTime := by
        rw [hlast, hx]
        rfl
      rw [this]
      exact hfire
  · rw [if_neg hfire]
    exact ⟨hlast, hchain⟩

theorem foldl_timeStep_inv (events : List (Nat × Nat)) {startTime : Nat}
    (st : TimeThrottleState) (h : timeInv startTime st) :
    timeInv startTime (events.foldl timeStep st) := by
  induction events generalizing st with
  | nil => exact h
  | cons e es ih => exact ih _ (timeStep_inv h e)

theorem timeRun_inv (startTime : Nat) (events : List (Nat × Nat)) :
    timeInv startTime (timeRun startTime events) := by
  have base : timeInv startTime ⟨0, startTime, []⟩ := ⟨rfl, List.chain'_nil⟩
  exact foldl_timeStep_inv events _ base

/-- Invariant of the percent-throttled reporter: `lastProgress` equals the
most recently reported percentage (0 when none fired yet), and successive
reported percentages grow by at least 10 points. -/
def percentInv (st : PercentThrottleState) : Prop :=
  st.lastProgress = (st.reports.getLast?).getD 0 ∧
  List.Chain' (fun a b : Nat => a + 10 ≤ b) st.reports

theorem percentStep_inv {totalSize : Nat} {st : PercentThrottleState}
    (h : percentInv st) (chunk : Nat) :
    percentInv (percentStep totalSize st chunk) := by
  obtain ⟨hlast, hchain⟩ := h
  unfold percentStep
  by_cases hfire :
      st.lastProgress + 10 ≤ (st.downloadedSize + chunk) * 100 / totalSize
  · rw [if_pos hfire]
    constructor
    · simp [List.getLast?_concat]
    · rw [List.chain'_append]
      refine ⟨hchain, List.chain'_singleton _, ?_⟩
      intro x hx y hy
      simp only [List.head?_cons, Option.mem_def, Option.some_inj] at hy
      subst hy
      have hxl : x = st.lastProgress := by
        rw [hlast, hx]
        rfl
      rw [hxl]
      exact hfire
  · rw [if_neg hfire]
    exact ⟨hlast, hchain⟩

theorem foldl_percentStep_inv (chunks : List Nat) {totalSize : Nat}
    (st : PercentThrottleState) (h : percentInv st) :
    percentInv (chunks.foldl (percentStep totalSize) st) := by
  induction chunks generalizing st with
  | nil => exact h
  | cons c cs ih => exact ih _ (percentStep_inv h c)

theorem percentRun_inv (totalSize : Nat) (chunks : List Nat) :
    percentInv (percentRun totalSize chunks) := by
  have base : percentInv ⟨0, 0, []⟩ := ⟨rfl, List.chain'_nil⟩
  exact foldl_percentStep_inv chunks _ base

/-! ## Concrete descriptors used by witnesses and counterexamples -/

/-- A successful adapter result whose two link fields are null and N/A. -/
def dBothNull : FileDetails :=
  { file_name := some "file.bin", sizebytes := none, file_size := none,
    link := none, fastlink := some "N/A" }

/-- A successful adapter result carrying a usable fast link. -/
def dFast : FileDetails :=
  { file_name := some "a.mp4", sizebytes := some 1000, file_size := none,
    link := some "N/A", fastlink := some "https://fast.example/dl" }

/-- A successful adapter result carrying only a usable direct link. -/
def dDirectOnly : FileDetails :=
  { file_name := some "b.mp4", sizebytes := some 1000, file_size := none,
    link := some "https://direct.example/dl", fastlink := none }

/-- Details stored by a request from chat 1. -/
def dChatA : FileDetails :=
  { file_name := some "a.bin", sizebytes := some 10, file_size := none,
    link := some "https://a.example/dl", fastlink := none }

/-- Details stored by a request from chat 2. -/
def dChatB : FileDetails :=
  { file_name := some "b.bin", sizebytes := some 20, file_size := none,
    link := some "https://b.example/dl", fastlink := none }

/-! ## Claim theorems -/

/-- C1: for every pair of adapter outcomes in which each successful
result has both its link and fastlink fields null or the string N/A, the
resolution pipeline — getBestTeraboxDetails followed by the
post-resolution link check of handleDownload, in both the part_003 and
the index.js variant — never returns that descriptor to its caller as
usable: the pipeline ends in an error, not in a usable descriptor. -/
theorem C1_invalid_descriptor_never_usable
    (rapid alpha : Except String FileDetails)
    (hr : ∀ d, rapid = Except.ok d → bothLinksNull d)
    (ha : ∀ d, alpha = Except.ok d → bothLinksNull d) :
    (resolveUsable rapid alpha).isOk = false ∧
    (resolveIndexJs rapid alpha).isOk = false := by
  cases rapid with
  | error re =>
    cases alpha with
    | error ae => exact ⟨rfl, rfl⟩
    | ok a =>
      obtain ⟨hal, haf⟩ := bothLinksNull_hasLink (ha a rfl)
      exact ⟨checkDetails_isOk_false hal haf _, checkDetails_isOk_false hal haf _⟩
  | ok r =>
    obtain ⟨hl, hf⟩ := bothLinksNull_hasLink (hr r rfl)
    cases alpha with
    | error ae =>
      exact ⟨checkDetails_isOk_false hl hf _, checkDetails_isOk_false hl hf _⟩
    | ok a =>
      obtain ⟨hal, haf⟩ := bothLinksNull_hasLink (ha a rfl)
      constructor
      · have hbest : getBestTeraboxDetails (Except.ok r) (Except.ok a) =
            Except.ok (a, "AlphaAPI") := by
          simp [getBestTeraboxDetails, hf, haf, hl]
        unfold resolveUsable
        rw [hbest]
        exact checkDetails_isOk_false hal haf _
      · exact checkDetails_isOk_false hl hf _

/-- C1 witness: two concrete successful results with links null/N-A are
rejected by both pipeline variants. -/
theorem C1_invalid_descriptor_never_usable_witness :
    (resolveUsable (Except.ok dBothNull) (Except.ok dBothNull)).isOk = false ∧
    (resolveIndexJs (Except.ok dBothNull) (Except.ok dBothNull)).isOk = false :=
  C1_invalid_descriptor_never_usable _ _
    (fun d h => by injection h with h2; subst h2; exact ⟨Or.inl rfl, Or.inr rfl⟩)
    (fun d h => by injection h with h2; subst h2; exact ⟨Or.inl rfl, Or.inr rfl⟩)

/-- C2: when both adapters succeed, result A carries a usable fast link
and result B only a usable direct link, getBestTeraboxDetails selects A,
for both assignments of A and B to the RapidAPI and AlphaAPI slots. -/
theorem C2_fast_link_wins (A B : FileDetails)
    (hA : hasLink A.fastlink = true)
    (hBfast : hasLink B.fastlink = false)
    (hBdirect : hasLink B.link = true) :
    getBestTeraboxDetails (Except.ok A) (Except.ok B) =
      Except.ok (A, "RapidAPI") ∧
    getBestTeraboxDetails (Except.ok B) (Except.ok A) =
      Except.ok (A, "AlphaAPI") := by
  constructor <;> simp [getBestTeraboxDetails, hA, hBfast]

/-- C2 witness: concrete fast-link and direct-only results, in both slot
assignments. -/
theorem C2_fast_link_wins_witness :
    getBestTeraboxDetails (Except.ok dFast) (Except.ok dDirectOnly) =
      Except.ok (dFast, "RapidAPI") ∧
    getBestTeraboxDetails (Except.ok dDirectOnly) (Except.ok dFast) =
      Except.ok (dFast, "AlphaAPI") :=
  C2_fast_link_wins dFast dDirectOnly (by decide) (by decide) (by decide)

/-- C3: when both adapters fail with non-empty diagnostics, the arbiter
(both the part_003 and the index.js variant) fails with one aggregated
error whose message contains both causes as substrings. -/
theorem C3_aggregated_error (re ae : String) (h1 : re ≠ "") (h2 : ae ≠ "") :
    getBestTeraboxDetails (Except.error re) (Except.error ae) =
      Except.error
        ("Both APIs failed. RapidAPI: " ++ re ++ ", AlphaAPI: " ++ ae) ∧
    resolveIndexJs (Except.error re) (Except.error ae) =
      Except.error
        ("Both APIs failed. RapidAPI: " ++ re ++ ", AlphaAPI: " ++ ae) ∧
    strContains ("Both APIs failed. RapidAPI: " ++ re ++ ", AlphaAPI: " ++ ae)
      re = true ∧
    strContains ("Both APIs failed. RapidAPI: " ++ re ++ ", AlphaAPI: " ++ ae)
      ae = true := by
  refine ⟨?_, rfl, ?_, ?_⟩
  · simp [getBestTeraboxDetails, errMsg, h1, h2]
  · have h := strContains_append_mid "Both APIs failed. RapidAPI: " re
      (", AlphaAPI: " ++ ae)
    simpa [String.append_assoc] using h
  · have h := strContains_append_mid
      ("Both APIs failed. RapidAPI: " ++ re ++ ", AlphaAPI: ") ae ""
    simpa [String.append_empty, String.append_assoc] using h

/-- C3 witness: two concrete adapter failure messages are both contained
in the single aggregated error. -/
theorem C3_aggregated_error_witness :
    getBestTeraboxDetails
        (Except.error "RapidAPI error: Request failed with status code 500")
        (Except.error "AlphaAPI error: Failed to get file details from AlphaAPIs") =
      Except.error ("Both APIs failed. RapidAPI: " ++
        "RapidAPI error: Request failed with status code 500" ++
        ", AlphaAPI: " ++
        "AlphaAPI error: Failed to get file details from AlphaAPIs") ∧
    resolveIndexJs
        (Except.error "RapidAPI error: Request failed with status code 500")
        (Except.error "AlphaAPI error: Failed to get file details from AlphaAPIs") =
      Except.error ("Both APIs failed. RapidAPI: " ++
        "RapidAPI error: Request failed with status code 500" ++
        ", AlphaAPI: " ++
        "AlphaAPI error: Failed to get file details from AlphaAPIs") ∧
    strContains ("Both APIs failed. RapidAPI: " ++
        "RapidAPI error: Request failed with status code 500" ++
        ", AlphaAPI: " ++
        "AlphaAPI error: Failed to get file details from AlphaAPIs")
      "RapidAPI error: Request failed with status code 500" = true ∧
    strContains ("Both APIs failed. RapidAPI: " ++
        "RapidAPI error: Request failed with status code 500" ++
        ", AlphaAPI: " ++
        "AlphaAPI error: Failed to get file details from AlphaAPIs")
      "AlphaAPI error: Failed to get file details from AlphaAPIs" = true :=
  C3_aggregated_error _ _ (by decide) (by decide)

/-- C4 counterexample: a file whose size equals the 50000000-byte
threshold exactly is handled as DIRECT_RELAY, not LINK_ONLY, because the
gate tests strict inequality. -/
theorem C4_threshold_counterexample :
    sizeGate 50000000 = GateDecision.DIRECT_RELAY ∧
    GateDecision.DIRECT_RELAY ≠ GateDecision.LINK_ONLY := by decide

/-- C4 amended: the gate returns DIRECT_RELAY for sizes below or equal to
the threshold (including the unknown size 0) and LINK_ONLY exactly for
sizes strictly above it. -/
theorem C4_gate_amended (fileSize : Nat) :
    (fileSize ≤ 50000000 → sizeGate fileSize = GateDecision.DIRECT_RELAY) ∧
    (50000000 < fileSize → sizeGate fileSize = GateDecision.LINK_ONLY) := by
  constructor
  · intro h
    simp [sizeGate, Nat.not_lt.mpr h]
  · intro h
    simp [sizeGate, h]

/-- C4 amended witness: unknown size 0 relays directly, one byte above
the threshold is link-only. -/
theorem C4_gate_amended_witness :
    sizeGate 0 = GateDecision.DIRECT_RELAY ∧
    sizeGate 50000001 = GateDecision.LINK_ONLY :=
  ⟨(C4_gate_amended 0).1 (by decide), (C4_gate_amended 50000001).2 (by decide)⟩

/-- C5: the index.js formatFileSize throws a TypeError on every numeric
argument (the missing parentheses route numbers into
`sizeBytes.includes('GB')`), while an already formatted size string is
returned unchanged — so the function is not total over the inputs the
claim names. -/
theorem C5_formatFileSize_number_throws :
    formatFileSizeIndexJs (SizeInput.num 1024) =
      Except.error "TypeError: sizeBytes.includes is not a function" ∧
    formatFileSizeIndexJs (SizeInput.str "1.2 MB") = Except.ok "1.2 MB" :=
  ⟨rfl, rfl⟩

/-- C6 counterexample: the input string of three exclamation marks
matches no provider pattern — it contains no supported domain, no s-id
segment, no surl parameter, and it is not a bare alphanumeric id — yet
the Telegraf classifier does not return Invalid: it forwards the raw text
as an id to the resolver, so a network call is made for it. -/
theorem C6_nonmatching_input_still_fetches :
    SUPPORTED_DOMAINS.all (fun d => !(strContains "!!!" d)) = true ∧
    findSId "!!!".data = none ∧
    strContains "!!!" "surl=" = false ∧
    isBareAlphanumericId "!!!" = false ∧
    classifyTelegraf "!!!" = Classified.fetch "!!!" := by
  refine ⟨by decide, by decide, by decide, by decide, by decide⟩

set_option maxRecDepth 20000 in
/-- C6 amended: the index.js classifier rejects every input containing no
supported domain substring with a reason naming all supported domains,
before any network call; the Telegraf-variant classifier rejects only
inputs whose extracted id is empty — every other non-matching input is
sent to the resolver. -/
theorem C6_classifier_amended (url text : String)
    (h : getServiceProvider url = none) :
    classifyIndexJs url = Classified.invalid unsupportedMsg ∧
    SUPPORTED_DOMAINS.all (fun d => strContains unsupportedMsg d) = true ∧
    (classifyTelegraf text =
        Classified.invalid "❌ Invalid TeraBox link. Please send a correct link or ID." ↔
      extractTeraboxId (jsTrim text) = "") := by
  refine ⟨?_, by decide, ?_⟩
  · simp [classifyIndexJs, h]
  · unfold classifyTelegraf
    by_cases hid : extractTeraboxId (jsTrim text) = ""
    · simp [hid]
    · simp [hid]

/-- C6 amended witness: the input hello contains no supported domain and
is rejected by the index.js classifier with the domain-naming reason; the
empty input is rejected by the Telegraf classifier. -/
theorem C6_classifier_amended_witness :
    classifyIndexJs "hello" = Classified.invalid unsupportedMsg ∧
    SUPPORTED_DOMAINS.all (fun d => strContains unsupportedMsg d) = true ∧
    (classifyTelegraf "" =
        Classified.invalid "❌ Invalid TeraBox link. Please send a correct link or ID." ↔
      extractTeraboxId (jsTrim "") = "") :=
  C6_classifier_amended "hello" "" (by decide)

/-- C7: within one transfer, the time-throttled reporter of
downloadAndSendFile fires at most once per 3-second window (successive
report timestamps are more than 3000 ms apart), and the percent-throttled
reporter of the Telegraf bot fires only when the percentage advanced by
at least 10 points since the last report, so the reported percentages are
monotonically non-decreasing.  The hypothesis restricts the percent
variant to a known positive total size, where natural division is a
faithful model of the JS percentage computation. -/
theorem C7_progress_throttling (totalSize : Nat) (chunks : List Nat)
    (startTime : Nat) (events : List (Nat × Nat))
    (htotal : 0 < totalSize) :
    List.Chain' (fun a b : Nat => a + 10 ≤ b)
      (percentRun totalSize chunks).reports ∧
    List.Chain' (fun a b : Nat => a ≤ b)
      (percentRun totalSize chunks).reports ∧
    List.Chain' (fun a b : Nat × Nat => a.1 + 3000 < b.1)
      (timeRun startTime events).reports := by
  have hp := (percentRun_inv totalSize chunks).2
  have ht := (timeRun_inv startTime events).2
  exact ⟨hp, hp.imp (fun a b h => by omega), ht⟩

/-- C7 witness: a concrete 1000-byte transfer in three chunks and a
concrete timed event stream. -/
theorem C7_progress_throttling_witness :
    List.Chain' (fun a b : Nat => a + 10 ≤ b)
      (percentRun 1000 [100, 400, 500]).reports ∧
    List.Chain' (fun a b : Nat => a ≤ b)
      (percentRun 1000 [100, 400, 500]).reports ∧
    List.Chain' (fun a b : Nat × Nat => a.1 + 3000 < b.1)
      (timeRun 0 [(4000, 10), (5000, 10), (9000, 10)]).reports :=
  C7_progress_throttling 1000 [100, 400, 500] 0
    [(4000, 10), (5000, 10), (9000, 10)] (by decide)

/-- C8: when the watchdog timer fires before the stream finished and the
partially written file is non-empty, the transfer resolves successfully
with the partial file — there is no configuration input — while an empty
or missing file is rejected; this refutes the claim that an unconfigured
timed-out transfer must not resolve successfully with a partial file. -/
theorem C8_timeout_partial_resolves :
    watchdogOutcome "downloads/file.bin" true 1 =
      Except.ok "downloads/file.bin" ∧
    watchdogOutcome "downloads/file.bin" true 0 =
      Except.error "Download timed out or empty file" ∧
    watchdogOutcome "downloads/file.bin" false 0 =
      Except.error "Download failed - no file created" :=
  ⟨rfl, rfl, rfl⟩

/-- C9 counterexample: in the part_002 variant the store is one shared
cell, so after chat 1 stores its details and chat 2 stores different
details, the callback arriving from chat 1 reads the details stored by
chat 2 — not the descriptor most recently stored for chat 1. -/
theorem C9_shared_cell_counterexample :
    part002Run [("1", dChatA), ("2", dChatB)] = some dChatB ∧
    lastFor "1" [("1", dChatA), ("2", dChatB)] = some dChatA ∧
    dChatB ≠ dChatA := by
  refine ⟨by decide, by decide, by decide⟩

/-- C9 amended: in the Map-keyed variants (index.js, part_004) the store
read for a chat always equals the descriptor most recently stored for
that chat, over every request sequence, and a store for one chat leaves
every other key unchanged; the part_002 variant instead keeps a single
last-write-wins cell shared by all chats. -/
theorem C9_store_amended :
    (∀ (reqs : List (String × FileDetails)) (c : String),
        runRequests reqs c = lastFor c reqs) ∧
    (∀ (m : String → Option FileDetails) (k : String) (v : FileDetails)
        (q : String), q ≠ k → mapSet m k v q = m q) := by
  constructor
  · intro reqs c
    have h := foldl_mapSet_eq reqs (fun _ => none) c
    unfold runRequests
    rw [h]
    cases lastFor c reqs <;> rfl
  · intro m k v q hq
    simp [mapSet, hq]

/-- C9 amended witness: a concrete two-chat sequence read back per chat,
and a concrete update that leaves the other key unchanged. -/
theorem C9_store_amended_witness :
    runRequests [("1", dChatA), ("2", dChatB)] "1" =
      lastFor "1" [("1", dChatA), ("2", dChatB)] ∧
    mapSet (fun _ => none) "1" dChatA "2" = none :=
  ⟨C9_store_amended.1 _ _, C9_store_amended.2 _ "1" dChatA "2" (by decide)⟩

/-- C10: every character of safeFileName is an ASCII letter, digit, dot,
or underscore; in particular no slash and no backslash from the input
survives, so the join of the download directory with the sanitized name
gains no path separator from the input. -/
theorem C10_sanitized_filename_charset (fileName : String) :
    ((safeFileName fileName).data.all
      (fun c => isAllowedChar c || c == '_')) = true ∧
    '/' ∉ (safeFileName fileName).data ∧
    '\\' ∉ (safeFileName fileName).data := by
  have hall : ∀ c ∈ (safeFileName fileName).data,
      (isAllowedChar c || c == '_') = true := by
    intro c hc
    have hc3 : c ∈ replaceDisallowed fileName.data :=
      mem_collapseUnderscores _ hc
    simp only [replaceDisallowed, List.mem_map] at hc3
    obtain ⟨a, _, ha⟩ := hc3
    by_cases h : isAllowedChar a
    · rw [if_pos h] at ha
      subst ha
      simp [h]
    · rw [if_neg h] at ha
      subst ha
      decide
  refine ⟨List.all_eq_true.mpr hall, ?_, ?_⟩
  · intro h
    exact absurd (hall _ h) (by decide)
  · intro h
    exact absurd (hall _ h) (by decide)

end TeraboxBot
